import Mathlib

/-!
Shallow embedding of the `jsonplaceholder-api` HTTP client wrapper
(`src/services/apiClient.ts` and `src/services/userService.ts`).

The transport (`fetch`) is modelled as a function parameter from the
outgoing `Request` to a `FetchResult`: either a thrown value, or a
response carrying the success flag, the numeric status and the result of
the asynchronous JSON decode.  JavaScript object-spread semantics for
header merging, JavaScript truthiness checks, and the
`URLSearchParams` x-www-form-urlencoded serialization are embedded
faithfully.
-/

set_option autoImplicit false

namespace JsonPlaceholder

/-- A JavaScript error value: either `new Error(message)` or any other
thrown value, kept opaque. -/
inductive JsError where
  | error (message : String)
  | other (tag : Nat)
deriving DecidableEq, Repr

deriving instance DecidableEq for Except

/-- Result of invoking the transport (`fetch`): either the call itself
rejects, or it yields a response with a success flag (`response.ok`), a
numeric status (`response.status`) and a JSON-decode outcome
(`response.json()`), which may itself reject. -/
inductive FetchResult (α : Type) where
  | throws (e : JsError)
  | response (ok : Bool) (status : Nat) (json : Except JsError α)
deriving DecidableEq, Repr

/-- `ApiClientOptions` from `apiClient.ts`: optional method, headers as a
string-to-string record (embedded as an association list in insertion
order), and an optional pre-serialized body string. -/
structure ApiClientOptions where
  method : Option String
  headers : List (String × String)
  body : Option String
deriving DecidableEq, Repr

/-- The default `{}` options value. -/
def ApiClientOptions.empty : ApiClientOptions := ⟨none, [], none⟩

/-- JavaScript object-key assignment: if the key is already present its
value is updated in place (the key keeps its original position),
otherwise the pair is appended at the end. -/
def setKey (m : List (String × String)) (k v : String) : List (String × String) :=
  if m.any (fun p => p.1 == k) then
    m.map (fun p => if p.1 == k then (k, v) else p)
  else
    m ++ [(k, v)]

/-- JavaScript object spread `{...m₁, ...m₂}`: every pair of `m₂` is
assigned on top of `m₁`, later pairs overriding earlier ones. -/
def spread (m₁ m₂ : List (String × String)) : List (String × String) :=
  m₂.foldl (fun acc p => setKey acc p.1 p.2) m₁

/-- First-match lookup in a header record (the observable value of a
JavaScript object's property, the record's keys being unique). -/
def getHeader (hs : List (String × String)) (k : String) : Option String :=
  (hs.find? (fun p => p.1 == k)).map Prod.snd

/-- JavaScript truthiness of an optional string (`undefined` and `""`
are falsy). -/
def jsTruthyStr : Option String → Bool
  | none => false
  | some s => !(s == "")

/-- JavaScript truthiness of an optional number (`undefined` and `0`
are falsy). -/
def jsTruthyInt : Option Int → Bool
  | none => false
  | some n => !(n == 0)

/-- The fixed base URL constant from `apiClient`. -/
def BASE_URL : String := "https://jsonplaceholder.typicode.com"

/-- The merged header object built by `apiClient`:
`{"Content-Type": "application/json", ...options.headers,
...(authToken ? {Authorization: Bearer <token>} : {})}`. -/
def mergedHeaders (options : ApiClientOptions) (authToken : Option String) :
    List (String × String) :=
  spread (spread [("Content-Type", "application/json")] options.headers)
    (if jsTruthyStr authToken then
      [("Authorization", "Bearer " ++ authToken.getD "")]
    else [])

/-- The `config` object built by `apiClient`: the caller options with the
headers replaced by the merged header object. -/
def apiClientConfig (options : ApiClientOptions) (authToken : Option String) :
    ApiClientOptions :=
  { options with headers := mergedHeaders options authToken }

/-- The outgoing HTTP request handed to the transport. -/
structure Request where
  url : String
  method : Option String
  headers : List (String × String)
  body : Option String
deriving DecidableEq, Repr

/-- The request `apiClient` issues: `fetch(BASE_URL + endpoint, config)`. -/
def apiClientRequest (endpoint : String) (options : ApiClientOptions)
    (authToken : Option String) : Request :=
  let config := apiClientConfig options authToken
  { url := BASE_URL ++ endpoint
    method := config.method
    headers := config.headers
    body := config.body }

/-- One `console.error("API call failed:", error)` diagnostic entry. -/
def logEntry (e : JsError) : String × JsError := ("API call failed:", e)

/-- The `try`/`catch` body of `apiClient` acting on the transport's
result: a non-ok response throws `Error("HTTP error! Status: <status>")`;
a decode failure propagates; every caught error is logged and re-thrown;
a successful decode returns the data unchanged.  The second component is
the list of diagnostic-stream entries emitted. -/
def apiClientRun {α : Type} (r : FetchResult α) :
    Except JsError α × List (String × JsError) :=
  match r with
  | .throws e => (.error e, [logEntry e])
  | .response ok status json =>
    if ok then
      match json with
      | .error e => (.error e, [logEntry e])
      | .ok data => (.ok data, [])
    else
      let e := JsError.error ("HTTP error! Status: " ++ toString status)
      (.error e, [logEntry e])

/-- `apiClient` from `apiClient.ts`: build the config, issue the request
through the transport, and handle the response. -/
def apiClient {α : Type} (endpoint : String) (options : ApiClientOptions)
    (authToken : Option String) (transport : Request → FetchResult α) :
    Except JsError α × List (String × JsError) :=
  apiClientRun (transport (apiClientRequest endpoint options authToken))

/-- The endpoint string built by `fetchData`:
`searchTerm ? /resource?field_like=term : /resource`. -/
def fetchDataEndpoint (resource searchField searchTerm : String) : String :=
  if !(searchTerm == "") then
    "/" ++ resource ++ "?" ++ searchField ++ "_like=" ++ searchTerm
  else
    "/" ++ resource

/-- `fetchData` from `apiClient.ts`: delegates to `apiClient` with the
constructed endpoint, no options and no token. -/
def fetchData {α : Type} (resource searchField searchTerm : String)
    (transport : Request → FetchResult α) :
    Except JsError α × List (String × JsError) :=
  apiClient (fetchDataEndpoint resource searchField searchTerm)
    ApiClientOptions.empty none transport

/-- `FilterOptions` from `apiClient.ts`. -/
structure FilterOptions where
  sortBy : Option String
  order : Option String
  limit : Option Int
  start : Option Int
deriving DecidableEq, Repr

/-- The default `{}` filter options value. -/
def FilterOptions.empty : FilterOptions := ⟨none, none, none, none⟩

/-- A filter value: `string | number`. -/
inductive FilterValue where
  | str (s : String)
  | num (n : Int)
deriving DecidableEq, Repr

/-- JavaScript `value.toString()` on a `string | number` value. -/
def FilterValue.toString : FilterValue → String
  | .str s => s
  | .num n => Int.repr n

/-- Hexadecimal digit character (upper case), for percent-encoding. -/
def hexDigit (n : Nat) : Char :=
  if n < 10 then Char.ofNat (48 + n) else Char.ofNat (55 + n)

/-- Percent-encode one byte as `%XY`. -/
def percentByte (b : Nat) : String :=
  "%" ++ String.singleton (hexDigit (b / 16)) ++ String.singleton (hexDigit (b % 16))

/-- UTF-8 byte sequence of a code point. -/
def utf8Bytes (n : Nat) : List Nat :=
  if n < 0x80 then [n]
  else if n < 0x800 then [0xC0 + n / 0x40, 0x80 + n % 0x40]
  else if n < 0x10000 then
    [0xE0 + n / 0x1000, 0x80 + (n / 0x40) % 0x40, 0x80 + n % 0x40]
  else
    [0xF0 + n / 0x40000, 0x80 + (n / 0x1000) % 0x40, 0x80 + (n / 0x40) % 0x40,
      0x80 + n % 0x40]

/-- Characters the `application/x-www-form-urlencoded` serializer leaves
unescaped: ASCII alphanumerics and `*`, `-`, `.`, `_`. -/
def isUrlencodedSafe (c : Char) : Bool :=
  (c.isAlpha && c.toNat < 128) || c.isDigit || c == '*' || c == '-' || c == '.' || c == '_'

/-- Serialize one character per the urlencoded rules: safe characters
kept, space becomes `+`, everything else percent-encoded by UTF-8 byte. -/
def encodeUrlChar (c : Char) : String :=
  if isUrlencodedSafe c then String.singleton c
  else if c == ' ' then "+"
  else String.join ((utf8Bytes c.toNat).map percentByte)

/-- `application/x-www-form-urlencoded` serialization of a string. -/
def urlencode (s : String) : String :=
  String.join (s.toList.map encodeUrlChar)

/-- `URLSearchParams.toString()`: the pairs in insertion order, each as
`key=value` (both urlencoded), joined with `&`. -/
def searchParamsToString (ps : List (String × String)) : String :=
  String.intercalate "&" (ps.map (fun p => urlencode p.1 ++ "=" ++ urlencode p.2))

/-- The `URLSearchParams` contents assembled by `fetchFilteredData`: one
appended pair per filter entry in insertion order, then `_sort`,
`_order`, `_limit`, `_start`, each appended only when the corresponding
option is truthy. -/
def fetchFilteredQuery (filters : List (String × FilterValue))
    (options : FilterOptions) : List (String × String) :=
  let qp := filters.map (fun fv => (fv.1, fv.2.toString))
  let qp := if jsTruthyStr options.sortBy then
      qp ++ [("_sort", options.sortBy.getD "")] else qp
  let qp := if jsTruthyStr options.order then
      qp ++ [("_order", options.order.getD "")] else qp
  let qp := if jsTruthyInt options.limit then
      qp ++ [("_limit", Int.repr (options.limit.getD 0))] else qp
  let qp := if jsTruthyInt options.start then
      qp ++ [("_start", Int.repr (options.start.getD 0))] else qp
  qp

/-- The endpoint string built by `fetchFilteredData`:
`/resource?` followed by the serialized query parameters. -/
def fetchFilteredEndpoint (resource : String)
    (filters : List (String × FilterValue)) (options : FilterOptions) : String :=
  "/" ++ resource ++ "?" ++ searchParamsToString (fetchFilteredQuery filters options)

/-- `fetchFilteredData` from `apiClient.ts`: delegates to `apiClient`
with the assembled endpoint, no options and no token. -/
def fetchFilteredData {α : Type} (resource : String)
    (filters : List (String × FilterValue)) (options : FilterOptions)
    (transport : Request → FetchResult α) :
    Except JsError α × List (String × JsError) :=
  apiClient (fetchFilteredEndpoint resource filters options)
    ApiClientOptions.empty none transport

/-- The request configuration `deleteUser` passes: `{method: "DELETE"}`. -/
def deleteUserOptions : ApiClientOptions := ⟨some "DELETE", [], none⟩

/-- The endpoint `deleteUser` targets: `` `/users/${userId}` ``. -/
def deleteUserEndpoint (userId : Int) : String := "/users/" ++ Int.repr userId

/-- `deleteUser` from `userService.ts`: a DELETE request through
`apiClient`, whose resolved value is awaited and discarded so the
returned promise resolves with no value. -/
def deleteUser {α : Type} (userId : Int) (authToken : Option String)
    (transport : Request → FetchResult α) :
    Except JsError Unit × List (String × JsError) :=
  let r := apiClient (deleteUserEndpoint userId) deleteUserOptions authToken transport
  (r.1.map (fun _ => ()), r.2)

/-! ### Lemmas about the JavaScript object-spread header merge -/

/-- Last-match lookup: the value the JavaScript spread of a pair list
assigns to a key (later assignments win). -/
def lastLookup : List (String × String) → String → Option String
  | [], _ => none
  | p :: t, k =>
    match lastLookup t k with
    | some v => some v
    | none => if p.1 == k then some p.2 else none

theorem lastLookup_cons (p : String × String) (t : List (String × String)) (k : String) :
    lastLookup (p :: t) k = match lastLookup t k with
      | some v => some v
      | none => if p.1 == k then some p.2 else none := rfl

theorem getHeader_nil (k : String) : getHeader [] k = none := rfl

theorem getHeader_cons (p : String × String) (t : List (String × String)) (k : String) :
    getHeader (p :: t) k = if p.1 == k then some p.2 else getHeader t k := by
  cases hpk : (p.1 == k) with
  | true =>
    simp only [getHeader, List.find?_cons, hpk, if_true]
    rfl
  | false => simp only [getHeader, List.find?_cons, hpk, Bool.false_eq_true, if_false]

theorem find_map_setKey_self (m : List (String × String)) (k v : String)
    (h : m.any (fun p => p.1 == k) = true) :
    (m.map (fun p => if p.1 == k then (k, v) else p)).find? (fun p => p.1 == k)
      = some (k, v) := by
  induction m with
  | nil => simp at h
  | cons p t ih =>
    rw [List.map_cons]
    by_cases hp : p.1 = k
    · rw [if_pos (by simp [hp]), List.find?_cons_of_pos _ (by simp)]
    · rw [if_neg (by simp [hp]), List.find?_cons_of_neg _ (by simp [hp])]
      apply ih
      simp only [List.any_cons, Bool.or_eq_true, beq_iff_eq, hp, false_or] at h
      exact h

theorem find_map_setKey_ne (m : List (String × String)) (k v k2 : String)
    (hne : k2 ≠ k) :
    (m.map (fun p => if p.1 == k then (k, v) else p)).find? (fun p => p.1 == k2)
      = m.find? (fun p => p.1 == k2) := by
  induction m with
  | nil => rfl
  | cons p t ih =>
    rw [List.map_cons]
    by_cases hp : p.1 = k
    · rw [if_pos (by simp [hp]),
        List.find?_cons_of_neg _ (by simp [Ne.symm hne]),
        List.find?_cons_of_neg _ (by simp [hp, Ne.symm hne])]
      exact ih
    · rw [if_neg (by simp [hp])]
      by_cases hp2 : p.1 = k2
      · rw [List.find?_cons_of_pos _ (by simp [hp2]),
          List.find?_cons_of_pos _ (by simp [hp2])]
      · rw [List.find?_cons_of_neg _ (by simp [hp2]),
          List.find?_cons_of_neg _ (by simp [hp2])]
        exact ih

theorem getHeader_setKey_self (m : List (String × String)) (k v : String) :
    getHeader (setKey m k v) k = some v := by
  unfold getHeader setKey
  by_cases h : m.any (fun p => p.1 == k) = true
  · rw [if_pos h, find_map_setKey_self m k v h]
    rfl
  · have hnone : m.find? (fun p => p.1 == k) = none := by
      rw [List.find?_eq_none]
      intro x hx hbx
      exact h (List.any_eq_true.mpr ⟨x, hx, hbx⟩)
    rw [if_neg h, List.find?_append, hnone, List.find?_cons_of_pos _ (by simp)]
    rfl

theorem getHeader_setKey_ne (m : List (String × String)) (k v k2 : String)
    (hne : k2 ≠ k) :
    getHeader (setKey m k v) k2 = getHeader m k2 := by
  unfold getHeader setKey
  by_cases h : m.any (fun p => p.1 == k) = true
  · rw [if_pos h, find_map_setKey_ne m k v k2 hne]
  · have hsing : List.find? (fun p => p.1 == k2) [(k, v)] = none := by
      rw [List.find?_cons_of_neg _ (by simp [Ne.symm hne])]
      rfl
    rw [if_neg h, List.find?_append, hsing, Option.or_none]

theorem getHeader_spread (m2 m1 : List (String × String)) (k : String) :
    getHeader (spread m1 m2) k = (lastLookup m2 k).or (getHeader m1 k) := by
  induction m2 generalizing m1 with
  | nil => rfl
  | cons p t ih =>
    have hstep : spread m1 (p :: t) = spread (setKey m1 p.1 p.2) t := rfl
    rw [hstep, ih, lastLookup_cons]
    cases hlt : lastLookup t k with
    | some v => rfl
    | none =>
      by_cases hp : p.1 = k
      · subst hp
        rw [Option.none_or, getHeader_setKey_self]
        simp
      · rw [Option.none_or, getHeader_setKey_ne m1 p.1 p.2 k (fun he => hp he.symm)]
        simp [beq_iff_eq, hp]

theorem getHeader_eq_none_of_not_mem (m : List (String × String)) (k : String)
    (h : k ∉ m.map Prod.fst) : getHeader m k = none := by
  unfold getHeader
  have : m.find? (fun p => p.1 == k) = none := by
    rw [List.find?_eq_none]
    intro x hx hbx
    exact h (List.mem_map.mpr ⟨x, hx, by simpa [beq_iff_eq] using hbx⟩)
  rw [this]
  rfl

theorem lastLookup_eq_getHeader (m : List (String × String)) (k : String)
    (h : (m.map Prod.fst).Nodup) : lastLookup m k = getHeader m k := by
  induction m with
  | nil => rfl
  | cons p t ih =>
    simp only [List.map_cons, List.nodup_cons] at h
    have hrec := ih h.2
    rw [lastLookup_cons, getHeader_cons]
    by_cases hp : p.1 = k
    · have ht : lastLookup t k = none := by
        rw [hrec]
        exact getHeader_eq_none_of_not_mem t k (hp ▸ h.1)
      rw [ht, ← hrec, ht]
    · rw [← hrec]
      cases hlt : lastLookup t k with
      | some v =>
        simp [beq_iff_eq, hp]
      | none =>
        rw [if_neg (by simp [hp])]

/-! ### Claim theorems -/

/-- Claim C1: for every successful response (transport success flag
true), `apiClient` resolves to exactly the JSON-decoded body supplied by
the transport, with no transformation applied to the value. -/
theorem c1_success_resolves_exact_body {α : Type} (endpoint : String)
    (options : ApiClientOptions) (authToken : Option String)
    (transport : Request → FetchResult α) (status : Nat) (data : α)
    (h : transport (apiClientRequest endpoint options authToken)
      = FetchResult.response true status (Except.ok data)) :
    apiClient endpoint options authToken transport = (Except.ok data, []) := by
  unfold apiClient
  rw [h]
  rfl

/-- Witness for C1 at a concrete transport returning body `42`. -/
theorem c1_success_resolves_exact_body_witness :
    apiClient "/users" ApiClientOptions.empty none
      (fun _ => FetchResult.response true 200 (Except.ok (42 : Nat)))
      = (Except.ok 42, []) :=
  c1_success_resolves_exact_body "/users" ApiClientOptions.empty none _ 200 42 rfl

/-- Claim C2: a response with success flag false and status `S` rejects
with message exactly `"HTTP error! Status: S"`; with success flag true
the outcome is exactly the JSON-decode outcome, so `apiClient` raises no
status error of its own. -/
theorem c2_http_error_message {α : Type} (endpoint : String)
    (options : ApiClientOptions) (authToken : Option String) (S : Nat)
    (json : Except JsError α) :
    (apiClient endpoint options authToken
        (fun _ => FetchResult.response false S json)).1
      = Except.error (JsError.error ("HTTP error! Status: " ++ toString S))
  ∧ (∀ data : α, (apiClient endpoint options authToken
        (fun _ => FetchResult.response true S (Except.ok data))).1 = Except.ok data)
  ∧ (∀ e : JsError, (apiClient endpoint options authToken
        (fun _ => (FetchResult.response true S (Except.error e) : FetchResult α))).1
      = Except.error e) :=
  ⟨rfl, fun _ => rfl, fun _ => rfl⟩

/-- Counterexample for C3: passing the empty string as the token adds no
`Authorization` header (JavaScript truthiness), refuting "exactly when a
token was passed". -/
theorem c3_empty_token_counterexample :
    getHeader (apiClientRequest "/users" ApiClientOptions.empty (some "")).headers
        "Authorization" = none
  ∧ ¬ getHeader (apiClientRequest "/users" ApiClientOptions.empty (some "")).headers
        "Authorization" = some ("Bearer " ++ "") := by
  constructor
  · rfl
  · decide

/-- Claim C3 (amended): header merge precedence — default
`Content-Type: application/json`, overridden by caller headers,
overridden by the `Authorization: Bearer <token>` header exactly when a
nonempty token is passed; with no (or an empty) token no `Authorization`
header is added and any caller-supplied one is left untouched. -/
theorem c3_header_merge (e : String) (opts : ApiClientOptions) (tk k : String)
    (hnd : (opts.headers.map Prod.fst).Nodup) (htk : tk ≠ "") :
    getHeader (apiClientRequest e opts (some tk)).headers "Authorization"
      = some ("Bearer " ++ tk)
  ∧ getHeader (apiClientRequest e opts none).headers "Authorization"
      = getHeader opts.headers "Authorization"
  ∧ (k ≠ "Authorization" →
      getHeader (apiClientRequest e opts (some tk)).headers k
        = (getHeader opts.headers k).or
            (if k = "Content-Type" then some "application/json" else none))
  ∧ getHeader (apiClientRequest e opts none).headers k
      = (getHeader opts.headers k).or
          (if k = "Content-Type" then some "application/json" else none) := by
  have hbase : ∀ k2 : String,
      getHeader (spread [("Content-Type", "application/json")] opts.headers) k2
        = (getHeader opts.headers k2).or
            (if k2 = "Content-Type" then some "application/json" else none) := by
    intro k2
    rw [getHeader_spread, lastLookup_eq_getHeader opts.headers k2 hnd, getHeader_cons]
    congr 1
    by_cases hc : k2 = "Content-Type"
    · simp [hc, getHeader_nil]
    · have hc2 : ¬"Content-Type" = k2 := fun h => hc h.symm
      simp [beq_iff_eq, hc, hc2, getHeader_nil]
  have hsome : mergedHeaders opts (some tk)
      = setKey (spread [("Content-Type", "application/json")] opts.headers)
          "Authorization" ("Bearer " ++ tk) := by
    unfold mergedHeaders
    rw [if_pos (by simp [jsTruthyStr, htk])]
    rfl
  have hnone : mergedHeaders opts none
      = spread [("Content-Type", "application/json")] opts.headers := rfl
  refine ⟨?_, ?_, ?_, ?_⟩
  · show getHeader (mergedHeaders opts (some tk)) "Authorization" = _
    rw [hsome, getHeader_setKey_self]
  · show getHeader (mergedHeaders opts none) "Authorization" = _
    rw [hnone, hbase, if_neg (by decide), Option.or_none]
  · intro hk
    show getHeader (mergedHeaders opts (some tk)) k = _
    rw [hsome, getHeader_setKey_ne _ _ _ _ hk, hbase]
  · show getHeader (mergedHeaders opts none) k = _
    rw [hnone, hbase]

/-- Witness for C3 (amended) at token `"tok"` and caller header
`X-Custom`. -/
theorem c3_header_merge_witness :
    getHeader (apiClientRequest "/users" ⟨none, [("X-Custom", "1")], none⟩
        (some "tok")).headers "Authorization" = some ("Bearer " ++ "tok")
  ∧ getHeader (apiClientRequest "/users" ⟨none, [("X-Custom", "1")], none⟩
        none).headers "Authorization" = getHeader [("X-Custom", "1")] "Authorization"
  ∧ getHeader (apiClientRequest "/users" ⟨none, [("X-Custom", "1")], none⟩
        (some "tok")).headers "X-Custom"
      = (getHeader [("X-Custom", "1")] "X-Custom").or
          (if "X-Custom" = "Content-Type" then some "application/json" else none) :=
  have h := c3_header_merge "/users" ⟨none, [("X-Custom", "1")], none⟩ "tok" "X-Custom"
    (by simp) (by decide)
  ⟨h.1, h.2.1, h.2.2.1 (by decide)⟩

/-- Claim C4: the query is one parameter per filter entry in insertion
order, followed by `_sort`, `_order`, `_limit`, `_start` in that fixed
order for the (truthy) options that are set; in particular the spec's
concrete example produces exactly
`/users?name=Lea&_sort=name&_order=asc&_limit=5`. -/
theorem c4_query_parameter_order (filters : List (String × FilterValue))
    (s o : String) (l st : Int) (hs : s ≠ "") (ho : o ≠ "") (hl : l ≠ 0)
    (hst : st ≠ 0) :
    fetchFilteredQuery filters ⟨some s, some o, some l, some st⟩
      = filters.map (fun fv => (fv.1, fv.2.toString))
        ++ [("_sort", s), ("_order", o), ("_limit", Int.repr l),
            ("_start", Int.repr st)]
  ∧ fetchFilteredEndpoint "users" [("name", FilterValue.str "Lea")]
      ⟨some "name", some "asc", some 5, none⟩
      = "/users?name=Lea&_sort=name&_order=asc&_limit=5" := by
  constructor
  · simp [fetchFilteredQuery, jsTruthyStr, jsTruthyInt, hs, ho, hl, hst]
  · rfl

/-- Witness for C4 with all four options set. -/
theorem c4_query_parameter_order_witness :
    fetchFilteredQuery [("name", FilterValue.str "Lea")]
        ⟨some "name", some "asc", some 5, some 2⟩
      = [("name", FilterValue.str "Lea")].map (fun fv => (fv.1, fv.2.toString))
        ++ [("_sort", "name"), ("_order", "asc"), ("_limit", Int.repr 5),
            ("_start", Int.repr 2)]
  ∧ fetchFilteredEndpoint "users" [("name", FilterValue.str "Lea")]
      ⟨some "name", some "asc", some 5, none⟩
      = "/users?name=Lea&_sort=name&_order=asc&_limit=5" :=
  c4_query_parameter_order [("name", FilterValue.str "Lea")] "name" "asc" 5 2
    (by decide) (by decide) (by decide) (by decide)

/-- Claim C5: an option that is present but falsy is omitted exactly as
if it were unset — `limit 0` produces no `_limit` parameter and
`start 0` produces no `_start` parameter. -/
theorem c5_falsy_options_omitted (filters : List (String × FilterValue))
    (o : FilterOptions) :
    fetchFilteredQuery filters { o with limit := some 0 }
      = fetchFilteredQuery filters { o with limit := none }
  ∧ fetchFilteredQuery filters { o with start := some 0 }
      = fetchFilteredQuery filters { o with start := none }
  ∧ ("_limit" ∉ filters.map Prod.fst →
      "_limit" ∉ (fetchFilteredQuery filters { o with limit := some 0 }).map Prod.fst)
  ∧ ("_start" ∉ filters.map Prod.fst →
      "_start" ∉ (fetchFilteredQuery filters { o with start := some 0 }).map Prod.fst) := by
  refine ⟨?_, ?_, ?_, ?_⟩
  · simp [fetchFilteredQuery, jsTruthyInt]
  · simp [fetchFilteredQuery, jsTruthyInt]
  · intro hmem
    by_cases h1 : jsTruthyStr o.sortBy <;> by_cases h2 : jsTruthyStr o.order <;>
      by_cases h4 : jsTruthyInt o.start <;>
      simp_all [fetchFilteredQuery, jsTruthyInt, List.map_append, List.mem_append]
  · intro hmem
    by_cases h1 : jsTruthyStr o.sortBy <;> by_cases h2 : jsTruthyStr o.order <;>
      by_cases h3 : jsTruthyInt o.limit <;>
      simp_all [fetchFilteredQuery, jsTruthyInt, List.map_append, List.mem_append]

/-- Witness for C5 at a concrete filter map and options. -/
theorem c5_falsy_options_omitted_witness :
    fetchFilteredQuery [("name", FilterValue.str "Lea")]
        { FilterOptions.empty with limit := some 0 }
      = fetchFilteredQuery [("name", FilterValue.str "Lea")]
        { FilterOptions.empty with limit := none }
  ∧ "_limit" ∉ (fetchFilteredQuery [("name", FilterValue.str "Lea")]
      { FilterOptions.empty with limit := some 0 }).map Prod.fst
  ∧ "_start" ∉ (fetchFilteredQuery [("name", FilterValue.str "Lea")]
      { FilterOptions.empty with start := some 0 }).map Prod.fst :=
  have h := c5_falsy_options_omitted [("name", FilterValue.str "Lea")]
    FilterOptions.empty
  ⟨h.1, h.2.2.1 (by decide), h.2.2.2 (by decide)⟩

/-- Claim C6: `fetchData` with no search term (empty string) requests
the bare collection path `/<resource>`, and with a term `t` requests
`/<resource>?<field>_like=<t>`; in particular `/users` and
`/users?name_like=Lea`. -/
theorem c6_fetchData_endpoints {α : Type} (r f t : String) (ht : t ≠ "") :
    fetchDataEndpoint r f t = "/" ++ r ++ "?" ++ f ++ "_like=" ++ t
  ∧ fetchDataEndpoint r f "" = "/" ++ r
  ∧ fetchDataEndpoint "users" "name" "" = "/users"
  ∧ fetchDataEndpoint "users" "name" "Lea" = "/users?name_like=Lea"
  ∧ ∀ transport : Request → FetchResult α,
      fetchData r f t transport
        = apiClient (fetchDataEndpoint r f t) ApiClientOptions.empty none transport := by
  refine ⟨?_, rfl, rfl, rfl, fun _ => rfl⟩
  unfold fetchDataEndpoint
  rw [if_pos (by simp [ht])]

/-- Witness for C6 at the spec's concrete example. -/
theorem c6_fetchData_endpoints_witness :
    fetchDataEndpoint "users" "name" "Lea"
      = "/" ++ "users" ++ "?" ++ "name" ++ "_like=" ++ "Lea"
  ∧ fetchData "users" "name" "Lea"
      (fun _ => FetchResult.response true 200 (Except.ok (0 : Nat)))
      = apiClient (fetchDataEndpoint "users" "name" "Lea") ApiClientOptions.empty none
          (fun _ => FetchResult.response true 200 (Except.ok (0 : Nat))) :=
  have h := @c6_fetchData_endpoints Nat "users" "name" "Lea" (by decide)
  ⟨h.1, h.2.2.2.2 _⟩

/-- Claim C7: every failure — transport rejection, HTTP status error, or
JSON-decode error — is logged to the diagnostic stream and re-thrown
unchanged; no error is swallowed and no fallback value is returned,
while success emits no log. -/
theorem c7_errors_logged_and_rethrown {α : Type} (endpoint : String)
    (options : ApiClientOptions) (authToken : Option String) (er : JsError)
    (S : Nat) (data : α) :
    apiClient endpoint options authToken
      (fun _ => (FetchResult.throws er : FetchResult α))
      = (Except.error er, [("API call failed:", er)])
  ∧ apiClient endpoint options authToken
      (fun _ => FetchResult.response false S (Except.ok data))
      = (Except.error (JsError.error ("HTTP error! Status: " ++ toString S)),
         [("API call failed:", JsError.error ("HTTP error! Status: " ++ toString S))])
  ∧ apiClient endpoint options authToken
      (fun _ => (FetchResult.response true S (Except.error er) : FetchResult α))
      = (Except.error er, [("API call failed:", er)])
  ∧ apiClient endpoint options authToken
      (fun _ => FetchResult.response true S (Except.ok data))
      = (Except.ok data, []) :=
  ⟨rfl, rfl, rfl, rfl⟩

/-- Claim C8: `deleteUser` issues a DELETE request to `/users/<id>` and
on success resolves with no value, discarding the response body. -/
theorem c8_deleteUser_delete_request {α : Type} (userId : Int)
    (authToken : Option String) (S : Nat) (data : α) :
    (apiClientRequest (deleteUserEndpoint userId) deleteUserOptions authToken).method
      = some "DELETE"
  ∧ (apiClientRequest (deleteUserEndpoint userId) deleteUserOptions authToken).url
      = BASE_URL ++ deleteUserEndpoint userId
  ∧ deleteUserEndpoint userId = "/users/" ++ Int.repr userId
  ∧ deleteUser userId authToken (fun _ => FetchResult.response true S (Except.ok data))
      = (Except.ok (), [])
  ∧ (∀ transport : Request → FetchResult α,
      deleteUser userId authToken transport
        = ((apiClient (deleteUserEndpoint userId) deleteUserOptions authToken
              transport).1.map (fun _ => ()),
           (apiClient (deleteUserEndpoint userId) deleteUserOptions authToken
              transport).2)) :=
  ⟨rfl, rfl, rfl, rfl, fun _ => rfl⟩

/-- Claim C9: the helpers `fetchData` and `fetchFilteredData` invoke the
request executor with no token and the default (empty) options, so the
issued request carries no `Authorization` header, uses the default
method, and has `Content-Type: application/json`. -/
theorem c9_helpers_unauthenticated {α : Type}
    (resource searchField searchTerm e : String)
    (filters : List (String × FilterValue)) (opts : FilterOptions)
    (transport : Request → FetchResult α) :
    fetchData resource searchField searchTerm transport
      = apiClientRun (transport (apiClientRequest
          (fetchDataEndpoint resource searchField searchTerm)
          ApiClientOptions.empty none))
  ∧ fetchFilteredData resource filters opts transport
      = apiClientRun (transport (apiClientRequest
          (fetchFilteredEndpoint resource filters opts) ApiClientOptions.empty none))
  ∧ getHeader (apiClientRequest e ApiClientOptions.empty none).headers "Authorization"
      = none
  ∧ (apiClientRequest e ApiClientOptions.empty none).method = none
  ∧ getHeader (apiClientRequest e ApiClientOptions.empty none).headers "Content-Type"
      = some "application/json" :=
  ⟨rfl, rfl, rfl, rfl, rfl⟩

/-- Claim C10: `fetchFilteredData` with an empty filter map and no (or
all-falsy) options targets `/<resource>?` — the separator is appended
even when the query string is empty — unlike `fetchData`, which requests
the bare path. -/
theorem c10_trailing_separator {α : Type} (resource searchField : String)
    (transport : Request → FetchResult α) :
    fetchFilteredEndpoint resource [] FilterOptions.empty = "/" ++ resource ++ "?"
  ∧ fetchFilteredEndpoint resource [] ⟨some "", some "", some 0, some 0⟩
      = "/" ++ resource ++ "?"
  ∧ fetchDataEndpoint resource searchField "" = "/" ++ resource
  ∧ fetchFilteredData resource [] FilterOptions.empty transport
      = apiClient ("/" ++ resource ++ "?") ApiClientOptions.empty none transport := by
  have hq : fetchFilteredEndpoint resource [] FilterOptions.empty
      = "/" ++ resource ++ "?" := by
    show "/" ++ resource ++ "?" ++ searchParamsToString [] = "/" ++ resource ++ "?"
    rw [show searchParamsToString [] = "" from rfl, String.append_empty]
  have hq2 : fetchFilteredEndpoint resource [] ⟨some "", some "", some 0, some 0⟩
      = "/" ++ resource ++ "?" := by
    show "/" ++ resource ++ "?" ++ searchParamsToString [] = "/" ++ resource ++ "?"
    rw [show searchParamsToString [] = "" from rfl, String.append_empty]
  refine ⟨hq, hq2, rfl, ?_⟩
  show apiClient (fetchFilteredEndpoint resource [] FilterOptions.empty)
    ApiClientOptions.empty none transport = _
  rw [hq]

end JsonPlaceholder
